import Mathlib

/-!
Shallow embedding of `rust_audio_lib` (src/rust_audio_lib/src/sys.rs,
src/rust_audio_lib/src/lib.rs, tests/integration.rs).

The native CoreAudio call `AudioObjectGetPropertyData` is modelled as an
oracle function (`sys.Native`) from the call's inputs (object id, property
address, the in/out size as passed in, and the initial — in the source,
uninitialized — contents of the output buffer) to the call's outputs
(status code, written-back size, final buffer contents as a raw number).
Buffer reinterpretation as a `sz`-byte unsigned value is `% 2 ^ (8 * sz)`.
Rust panics (the `assert!` in `utils::get_property_data` and the
`panic!` arm of `impl From<OSStatus> for Error`) are modelled by the
`Ret.panics` constructor of an explicit outcome type.
-/

namespace sys

/-- MacTypes.h: `pub type OSStatus = i32;` (signed 32-bit status code). -/
abbrev OSStatus := Int

/-- AudioHardwareBase.h: `pub type AudioObjectID = u32;`. -/
abbrev AudioObjectID := Nat

/-- `#[repr(C)] pub struct AudioObjectPropertyAddress` with three u32 fields. -/
structure AudioObjectPropertyAddress where
  mSelector : Nat
  mScope : Nat
  mElement : Nat
deriving DecidableEq

/-- `const kAudioHardwareNoError: OSStatus = 0;` -/
def kAudioHardwareNoError : OSStatus := 0

/-- `pub const kAudioHardwareBadObjectError: OSStatus = 560947818;` -/
def kAudioHardwareBadObjectError : OSStatus := 560947818

/-- `pub const kAudioObjectUnknown: AudioObjectID = 0;` -/
def kAudioObjectUnknown : AudioObjectID := 0

/-- `pub const kAudioObjectPropertyScopeGlobal: AudioObjectPropertyScope = 1735159650;` -/
def kAudioObjectPropertyScopeGlobal : Nat := 1735159650

/-- `pub const kAudioObjectPropertyElementMaster: AudioObjectPropertyElement = 0;` -/
def kAudioObjectPropertyElementMaster : Nat := 0

/-- `pub const kAudioObjectSystemObject: AudioObjectID = 1;` -/
def kAudioObjectSystemObject : AudioObjectID := 1

/-- `pub const kAudioHardwarePropertyDefaultInputDevice: AudioObjectPropertySelector = 1682533920;` -/
def kAudioHardwarePropertyDefaultInputDevice : Nat := 1682533920

/-- `pub const kAudioHardwarePropertyDefaultOutputDevice: AudioObjectPropertySelector = 1682929012;` -/
def kAudioHardwarePropertyDefaultOutputDevice : Nat := 1682929012

/-- Outcome of one invocation of the native `AudioObjectGetPropertyData`
call: the returned status, the written-back `ioDataSize`, and the final
contents of the output buffer (as a raw number). -/
structure NativeResult where
  status : OSStatus
  size : Nat
  data : Nat
deriving DecidableEq

/-- The native `AudioObjectGetPropertyData` entry point, modelled as an
arbitrary function of its inputs: object id, property address, the size
passed in, and the buffer contents before the call (uninitialized in the
source). -/
def Native : Type :=
  AudioObjectID → AudioObjectPropertyAddress → Nat → Nat → NativeResult

/-- sys.rs `pub fn get_property_data<T>(id, address) -> Result<T, OSStatus>`:
allocate a buffer of `sz = size_of::<T>()` bytes (initial contents `init`,
uninitialized in the source), invoke the native call, and on status
`kAudioHardwareNoError` return the buffer reinterpreted as `T`
(`% 2 ^ (8 * sz)`), otherwise return the status as the error. -/
def get_property_data (native : Native) (sz : Nat) (init : Nat)
    (id : AudioObjectID) (address : AudioObjectPropertyAddress) :
    Except OSStatus Nat :=
  if (native id address sz init).status = kAudioHardwareNoError then
    Except.ok ((native id address sz init).data % 2 ^ (8 * sz))
  else
    Except.error (native id address sz init).status

end sys

/-- Outcome of running a Rust function that may panic: either a panic, or a
normal return of a value. -/
inductive Ret (α : Type) where
  | panics
  | returns (a : α)
deriving DecidableEq

namespace utils

/-- lib.rs `pub enum Scope { Input, Output }`. -/
inductive Scope where
  | Input
  | Output
deriving DecidableEq

/-- lib.rs `pub enum Error { Ok, NoDevice, InvalidParameters }`. -/
inductive Error where
  | Ok
  | NoDevice
  | InvalidParameters
deriving DecidableEq

/-- lib.rs `pub type DeviceId = i32;`, a signed 32-bit integer. -/
abbrev DeviceId := Int

/-- lib.rs `DEFAULT_INPUT_DEVICE_PROPERTY_ADDRESS`. -/
def DEFAULT_INPUT_DEVICE_PROPERTY_ADDRESS : sys.AudioObjectPropertyAddress :=
  { mSelector := sys.kAudioHardwarePropertyDefaultInputDevice
    mScope := sys.kAudioObjectPropertyScopeGlobal
    mElement := sys.kAudioObjectPropertyElementMaster }

/-- lib.rs `DEFAULT_OUTPUT_DEVICE_PROPERTY_ADDRESS`. -/
def DEFAULT_OUTPUT_DEVICE_PROPERTY_ADDRESS : sys.AudioObjectPropertyAddress :=
  { mSelector := sys.kAudioHardwarePropertyDefaultOutputDevice
    mScope := sys.kAudioObjectPropertyScopeGlobal
    mElement := sys.kAudioObjectPropertyElementMaster }

/-- lib.rs `impl From<sys::OSStatus> for Error`: `kAudioHardwareBadObjectError`
maps to `InvalidParameters`; every other status hits the
`panic!("Unknown error status: ...")` arm. -/
def errorFromOSStatus (status : sys.OSStatus) : Ret Error :=
  if status = sys.kAudioHardwareBadObjectError then
    Ret.returns Error.InvalidParameters
  else
    Ret.panics

/-- lib.rs `fn convert_to_result(status) -> Result<(), Error>`:
`kAudioHardwareNoError` maps to `Ok(())`; any other status is converted via
`Error::from` (which may panic) and returned as `Err`. -/
def convert_to_result (status : sys.OSStatus) : Ret (Except Error Unit) :=
  if status = sys.kAudioHardwareNoError then
    Ret.returns (Except.ok ())
  else
    match errorFromOSStatus status with
    | Ret.panics => Ret.panics
    | Ret.returns e => Ret.returns (Except.error e)

/-- lib.rs `fn get_property_data<T>(id, address) -> Result<T, Error>`:
`assert!(id != kAudioObjectUnknown)` (panic on the sentinel), then an
uninitialized buffer of `sz = size_of::<T>()` bytes, the native call, then
`convert_to_result(status)?` and on success the buffer reinterpreted as `T`. -/
def get_property_data (native : sys.Native) (sz : Nat) (init : Nat)
    (id : sys.AudioObjectID) (address : sys.AudioObjectPropertyAddress) :
    Ret (Except Error Nat) :=
  if id = sys.kAudioObjectUnknown then
    Ret.panics
  else
    match convert_to_result (native id address sz init).status with
    | Ret.panics => Ret.panics
    | Ret.returns (Except.error e) => Ret.returns (Except.error e)
    | Ret.returns (Except.ok _) =>
      Ret.returns (Except.ok ((native id address sz init).data % 2 ^ (8 * sz)))

/-- lib.rs `fn to_device_id(id: AudioObjectID) -> DeviceId { id as DeviceId }`:
the u32 value reinterpreted as a signed 32-bit integer. -/
def to_device_id (id : sys.AudioObjectID) : DeviceId :=
  if id % 2 ^ 32 < 2 ^ 31 then ((id % 2 ^ 32 : Nat) : Int)
  else ((id % 2 ^ 32 : Nat) : Int) - 2 ^ 32

/-- lib.rs `pub fn get_default_device_id(scope) -> Result<DeviceId, Error>`:
pick the input or output well-known address by `scope`, read an
`AudioObjectID` (4 bytes) from the system object, and map a successful read
of the sentinel to `NoDevice`, any other success through `to_device_id`. -/
def get_default_device_id (native : sys.Native) (init : Nat) (scope : Scope) :
    Ret (Except Error DeviceId) :=
  match get_property_data native 4 init sys.kAudioObjectSystemObject
      (if scope = Scope.Input then DEFAULT_INPUT_DEVICE_PROPERTY_ADDRESS
       else DEFAULT_OUTPUT_DEVICE_PROPERTY_ADDRESS) with
  | Ret.panics => Ret.panics
  | Ret.returns (Except.error e) => Ret.returns (Except.error e)
  | Ret.returns (Except.ok id) =>
    if id = sys.kAudioObjectUnknown then
      Ret.returns (Except.error Error.NoDevice)
    else
      Ret.returns (Except.ok (to_device_id id))

/-- The address-selection step of `get_default_device_id`, named so theorems
can speak about which constant address the function uses for each scope. -/
def selectAddress (scope : Scope) : sys.AudioObjectPropertyAddress :=
  if scope = Scope.Input then DEFAULT_INPUT_DEVICE_PROPERTY_ADDRESS
  else DEFAULT_OUTPUT_DEVICE_PROPERTY_ADDRESS

/-- The postprocessing step of `get_default_device_id` applied to the core
read's outcome, named so theorems can state the decomposition. -/
def processPropertyResult (r : Ret (Except Error Nat)) : Ret (Except Error DeviceId) :=
  match r with
  | Ret.panics => Ret.panics
  | Ret.returns (Except.error e) => Ret.returns (Except.error e)
  | Ret.returns (Except.ok id) =>
    if id = sys.kAudioObjectUnknown then
      Ret.returns (Except.error Error.NoDevice)
    else
      Ret.returns (Except.ok (to_device_id id))

/-- Modelled from the spec: `get_abs` is absent from the provided sources
(only the integration test calls it). Per the spec, it "returns `|x|` by
delegating to the native primitive" over 32-bit signed integers, with the
native two's-complement wrap at the minimum representable value. -/
def get_abs (x : Int) : Int :=
  (|x| + 2 ^ 31) % 2 ^ 32 - 2 ^ 31

/-- Modelled from the spec: `double_abs` is absent from the provided sources
(only the integration test calls it). Per the spec, it "returns
`get_abs(x) * 2`" over 32-bit signed integers, wrapping on overflow. -/
def double_abs (x : Int) : Int :=
  (get_abs x * 2 + 2 ^ 31) % 2 ^ 32 - 2 ^ 31

end utils

/-- lib.rs `#[no_mangle] pub extern "C" fn get_default_device_id(scope, id)`:
the C-ABI entry point. The out-pointer is modelled by a null flag plus the
pointed-to memory cell `mem`; the result pairs the returned `Error` with the
cell's contents after the call. -/
def ffi_get_default_device_id (native : sys.Native) (init : Nat)
    (scope : utils.Scope) (idIsNull : Bool) (mem : utils.DeviceId) :
    Ret (utils.Error × utils.DeviceId) :=
  if idIsNull then
    Ret.returns (utils.Error.InvalidParameters, mem)
  else
    match utils.get_default_device_id native init scope with
    | Ret.panics => Ret.panics
    | Ret.returns (Except.ok device_id) => Ret.returns (utils.Error.Ok, device_id)
    | Ret.returns (Except.error e) => Ret.returns (e, mem)

/-! ## Helper lemmas shared by several claims -/

/-- The body of `utils.get_default_device_id` is the postprocessing step
applied to the core read at the system object and the scope-selected
address. -/
theorem gdd_decomp (native : sys.Native) (init : Nat) (scope : utils.Scope) :
    utils.get_default_device_id native init scope
      = utils.processPropertyResult
          (utils.get_property_data native 4 init sys.kAudioObjectSystemObject
            (utils.selectAddress scope)) := by
  cases scope <;> rfl

/-- On a non-sentinel id and a zero native status, `utils.get_property_data`
returns the buffer contents reinterpreted at the declared size, with no
check of the written-back size. -/
theorem gpd_success (native : sys.Native) (sz init : Nat) (id : sys.AudioObjectID)
    (address : sys.AudioObjectPropertyAddress)
    (hid : id ≠ sys.kAudioObjectUnknown)
    (hst : (native id address sz init).status = sys.kAudioHardwareNoError) :
    utils.get_property_data native sz init id address
      = Ret.returns (Except.ok ((native id address sz init).data % 2 ^ (8 * sz))) := by
  unfold utils.get_property_data
  rw [if_neg hid]
  simp [utils.convert_to_result, hst]

/-- Inversion: a successful return of `utils.get_property_data` carries the
buffer contents reinterpreted at the declared size. -/
theorem gpd_ok_inv (native : sys.Native) (sz init : Nat) (id : sys.AudioObjectID)
    (address : sys.AudioObjectPropertyAddress) (v : Nat)
    (h : utils.get_property_data native sz init id address = Ret.returns (Except.ok v)) :
    v = (native id address sz init).data % 2 ^ (8 * sz) := by
  unfold utils.get_property_data at h
  split at h
  · exact absurd h (by simp)
  · split at h <;> simp_all

/-- `utils.convert_to_result` has exactly three outcomes: success, a panic,
or the `InvalidParameters` error. -/
theorem convert_to_result_cases (status : sys.OSStatus) :
    utils.convert_to_result status = Ret.returns (Except.ok ())
      ∨ utils.convert_to_result status = Ret.panics
      ∨ utils.convert_to_result status
          = Ret.returns (Except.error utils.Error.InvalidParameters) := by
  unfold utils.convert_to_result utils.errorFromOSStatus
  by_cases h0 : status = sys.kAudioHardwareNoError
  · rw [if_pos h0]
    exact Or.inl rfl
  · rw [if_neg h0]
    by_cases hb : status = sys.kAudioHardwareBadObjectError
    · rw [if_pos hb]
      exact Or.inr (Or.inr rfl)
    · rw [if_neg hb]
      exact Or.inr (Or.inl rfl)

/-- `utils.get_property_data` has exactly three outcomes: a panic, a
successful value, or the `InvalidParameters` error. -/
theorem gpd_cases (native : sys.Native) (sz init : Nat) (id : sys.AudioObjectID)
    (address : sys.AudioObjectPropertyAddress) :
    utils.get_property_data native sz init id address = Ret.panics
      ∨ utils.get_property_data native sz init id address
          = Ret.returns (Except.ok ((native id address sz init).data % 2 ^ (8 * sz)))
      ∨ utils.get_property_data native sz init id address
          = Ret.returns (Except.error utils.Error.InvalidParameters) := by
  unfold utils.get_property_data
  split
  · exact Or.inl rfl
  · rcases convert_to_result_cases (native id address sz init).status with hc | hc | hc <;>
      rw [hc]
    · exact Or.inr (Or.inl rfl)
    · exact Or.inl rfl
    · exact Or.inr (Or.inr rfl)

/-- The signed reinterpretation of a 32-bit value is zero exactly when the
value (mod `2 ^ 32`) is zero. -/
theorem to_device_id_ne_zero (id : Nat) (h : id % 2 ^ 32 ≠ 0) :
    utils.to_device_id id ≠ 0 := by
  unfold utils.to_device_id
  intro hq
  split at hq
  · have hq2 : ((id % 2 ^ 32 : Nat) : Int) = (0 : Int) := hq
    omega
  · have hq2 : ((id % 2 ^ 32 : Nat) : Int) - 2 ^ 32 = (0 : Int) := hq
    have hlt : id % 2 ^ 32 < 2 ^ 32 := Nat.mod_lt _ (by norm_num)
    omega

/-- `utils.get_default_device_id` never returns `Err(Error::Ok)`: its error
returns are only `NoDevice` or `InvalidParameters`. -/
theorem gdd_error_ne_ok (native : sys.Native) (init : Nat) (scope : utils.Scope)
    (e : utils.Error)
    (h : utils.get_default_device_id native init scope
          = Ret.returns (Except.error e)) :
    e ≠ utils.Error.Ok := by
  rw [gdd_decomp] at h
  rcases gpd_cases native 4 init sys.kAudioObjectSystemObject
      (utils.selectAddress scope) with hc | hc | hc <;>
    rw [hc] at h <;> simp only [utils.processPropertyResult] at h
  · exact absurd h (by simp)
  · split at h
    · simp only [Ret.returns.injEq, Except.error.injEq] at h
      intro hq
      rw [hq] at h
      exact absurd h (by decide)
    · simp at h
  · simp only [Ret.returns.injEq, Except.error.injEq] at h
    intro hq
    rw [hq] at h
    exact absurd h (by decide)

/-! ## Claim theorems -/

/-- Claim C1 (counterexample): with a concrete native oracle, calling the
core read `utils.get_property_data` with the sentinel unknown object id 0
and the well-known default-input address panics at the `assert!`, so it
does not return the `InvalidParameters` error. -/
theorem claim_C1_counterexample :
    utils.get_property_data (fun _ _ _ _ => ⟨0, 4, 1⟩) 4 0
      sys.kAudioObjectUnknown utils.DEFAULT_INPUT_DEVICE_PROPERTY_ADDRESS
      = Ret.panics := rfl

/-- Claim C1 (amended): for either well-known address, every modelled native
behavior, every declared size and every initial buffer state, calling the
core read with the sentinel unknown object id 0 panics at the assertion;
in particular it never returns a successful result (and never returns the
`InvalidParameters` error either). -/
theorem claim_C1_amended :
    ∀ (native : sys.Native) (sz init : Nat),
      utils.get_property_data native sz init sys.kAudioObjectUnknown
        utils.DEFAULT_INPUT_DEVICE_PROPERTY_ADDRESS = Ret.panics ∧
      utils.get_property_data native sz init sys.kAudioObjectUnknown
        utils.DEFAULT_OUTPUT_DEVICE_PROPERTY_ADDRESS = Ret.panics :=
  fun _ _ _ => ⟨rfl, rfl⟩

/-- Claim C2: for every scope, if the native call inside
`get_default_device_id` succeeds (zero status) but the resolved id equals
the unknown sentinel 0, the function returns the `NoDevice` error rather
than a successful result. -/
theorem claim_C2_sentinel_is_no_device :
    ∀ (native : sys.Native) (init : Nat) (scope : utils.Scope),
      (native sys.kAudioObjectSystemObject (utils.selectAddress scope) 4 init).status
          = sys.kAudioHardwareNoError →
      (native sys.kAudioObjectSystemObject (utils.selectAddress scope) 4 init).data % 2 ^ 32
          = sys.kAudioObjectUnknown →
      utils.get_default_device_id native init scope
        = Ret.returns (Except.error utils.Error.NoDevice) := by
  intro native init scope h1 h2
  rw [gdd_decomp,
    gpd_success native 4 init sys.kAudioObjectSystemObject
      (utils.selectAddress scope) (by decide) h1]
  simp only [utils.processPropertyResult]
  rw [if_pos (show _ % 2 ^ (8 * 4) = sys.kAudioObjectUnknown from h2)]

/-- Claim C2 witness: a concrete native oracle that succeeds with the
sentinel id makes `get_default_device_id` return `NoDevice`. -/
theorem claim_C2_witness :
    utils.get_default_device_id (fun _ _ _ _ => ⟨0, 4, 0⟩) 0 utils.Scope.Input
      = Ret.returns (Except.error utils.Error.NoDevice) :=
  claim_C2_sentinel_is_no_device (fun _ _ _ _ => ⟨0, 4, 0⟩) 0 utils.Scope.Input
    rfl rfl

/-- Claim C3: for every object id, address and native-call outcome, the sys
layer read `sys.get_property_data` returns `Ok` with the value left in the
buffer by the native call if and only if the native status is zero, and on
any nonzero status it returns that status code as the error value. -/
theorem claim_C3_status_determines_result :
    ∀ (native : sys.Native) (sz init : Nat) (id : sys.AudioObjectID)
      (address : sys.AudioObjectPropertyAddress),
      (∀ v : Nat,
        sys.get_property_data native sz init id address = Except.ok v ↔
          ((native id address sz init).status = sys.kAudioHardwareNoError ∧
           v = (native id address sz init).data % 2 ^ (8 * sz))) ∧
      ((native id address sz init).status ≠ sys.kAudioHardwareNoError →
        sys.get_property_data native sz init id address
          = Except.error (native id address sz init).status) := by
  intro native sz init id address
  unfold sys.get_property_data
  by_cases h : (native id address sz init).status = sys.kAudioHardwareNoError
  · refine ⟨fun v => ?_, fun hn => absurd h hn⟩
    simp [h, eq_comm]
  · refine ⟨fun v => ?_, fun _ => ?_⟩
    · simp [h]
    · rw [if_neg h]

/-- Claim C3 witness: a concrete native oracle failing with status 7 makes
the sys layer read return that status as the error. -/
theorem claim_C3_witness :
    sys.get_property_data (fun _ _ _ _ => ⟨7, 4, 5⟩) 4 0 1
      utils.DEFAULT_INPUT_DEVICE_PROPERTY_ADDRESS = Except.error 7 :=
  (claim_C3_status_determines_result (fun _ _ _ _ => ⟨7, 4, 5⟩) 4 0 1
    utils.DEFAULT_INPUT_DEVICE_PROPERTY_ADDRESS).2 (by decide)

/-- Claim C4 (counterexample): the status-to-error mapping
(`impl From<sys::OSStatus> for Error`) is not total and panic-free: at the
nonzero, unrecognized status code 1 it panics instead of returning a typed
error value. -/
theorem claim_C4_counterexample :
    utils.errorFromOSStatus 1 = Ret.panics := rfl

/-- Claim C4 (amended): the status-to-error mapping sends the recognized
code `kAudioHardwareBadObjectError` to `InvalidParameters` and panics on
every other status code; it is not a total panic-free mapping. -/
theorem claim_C4_amended :
    utils.errorFromOSStatus sys.kAudioHardwareBadObjectError
        = Ret.returns utils.Error.InvalidParameters ∧
    ∀ s : sys.OSStatus, s ≠ sys.kAudioHardwareBadObjectError →
      utils.errorFromOSStatus s = Ret.panics := by
  refine ⟨rfl, ?_⟩
  intro s h
  unfold utils.errorFromOSStatus
  rw [if_neg h]

/-- Claim C4 witness: the amended mapping applied at the concrete
unrecognized status 561. -/
theorem claim_C4_witness :
    utils.errorFromOSStatus 561 = Ret.panics :=
  claim_C4_amended.2 561 (by decide)

/-- Claim C5 (counterexample): a concrete native oracle reporting success
with written size 999 (not `sizeof(u32) = 4`) still makes
`utils.get_property_data` return the buffer contents as a valid value;
there is no `SizeMismatch` failure (the `Error` type has no such case). -/
theorem claim_C5_counterexample :
    utils.get_property_data (fun _ _ _ _ => ⟨0, 999, 42⟩) 4 0
      sys.kAudioObjectSystemObject utils.DEFAULT_INPUT_DEVICE_PROPERTY_ADDRESS
      = Ret.returns (Except.ok 42) := rfl

/-- Claim C5 (amended): whenever the native call reports success,
`utils.get_property_data` returns the buffer contents as a valid value
regardless of the written size the native call reports; no size check is
performed and no `SizeMismatch` error exists. -/
theorem claim_C5_amended :
    ∀ (native : sys.Native) (sz init : Nat) (id : sys.AudioObjectID)
      (address : sys.AudioObjectPropertyAddress),
      id ≠ sys.kAudioObjectUnknown →
      (native id address sz init).status = sys.kAudioHardwareNoError →
      utils.get_property_data native sz init id address
        = Ret.returns (Except.ok ((native id address sz init).data % 2 ^ (8 * sz))) :=
  fun native sz init id address hid hst => gpd_success native sz init id address hid hst

/-- Claim C5 witness: the amended statement applied at a concrete oracle
whose reported written size 999 differs from the declared size 4. -/
theorem claim_C5_witness :
    utils.get_property_data (fun _ _ _ _ => ⟨0, 999, 42⟩) 4 0 2
      utils.DEFAULT_OUTPUT_DEVICE_PROPERTY_ADDRESS
      = Ret.returns (Except.ok (42 % 2 ^ (8 * 4))) :=
  claim_C5_amended (fun _ _ _ _ => ⟨0, 999, 42⟩) 4 0 2
    utils.DEFAULT_OUTPUT_DEVICE_PROPERTY_ADDRESS (by decide) rfl

/-- Claim C6: for every scope, `get_default_device_id` equals the
postprocessing of the core property read invoked at the system root object
id (`kAudioObjectSystemObject = 1`) with exactly the scope-selected
process-wide constant address: the default-input address when the scope is
`Input`, the default-output address otherwise. -/
theorem claim_C6_address_selection :
    ∀ (native : sys.Native) (init : Nat) (scope : utils.Scope),
      utils.get_default_device_id native init scope
        = utils.processPropertyResult
            (utils.get_property_data native 4 init sys.kAudioObjectSystemObject
              (utils.selectAddress scope)) ∧
      utils.selectAddress utils.Scope.Input
        = utils.DEFAULT_INPUT_DEVICE_PROPERTY_ADDRESS ∧
      utils.selectAddress utils.Scope.Output
        = utils.DEFAULT_OUTPUT_DEVICE_PROPERTY_ADDRESS ∧
      sys.kAudioObjectSystemObject = 1 :=
  fun native init scope => ⟨gdd_decomp native init scope, rfl, rfl, rfl⟩

/-- Claim C7: a successful result of `get_default_device_id` is never the
device id 0; and for either scope, if the native call succeeds with a
nonzero resolved id (a system with at least one audio device), the function
returns `Ok` of a nonzero id. -/
theorem claim_C7_success_nonzero :
    ∀ (native : sys.Native) (init : Nat) (scope : utils.Scope),
      (∀ d : utils.DeviceId,
        utils.get_default_device_id native init scope
            = Ret.returns (Except.ok d) → d ≠ 0) ∧
      ((native sys.kAudioObjectSystemObject (utils.selectAddress scope) 4 init).status
          = sys.kAudioHardwareNoError →
       (native sys.kAudioObjectSystemObject (utils.selectAddress scope) 4 init).data % 2 ^ 32
          ≠ 0 →
       ∃ d : utils.DeviceId,
         utils.get_default_device_id native init scope
             = Ret.returns (Except.ok d) ∧ d ≠ 0) := by
  intro native init scope
  constructor
  · intro d h
    rw [gdd_decomp] at h
    rcases gpd_cases native 4 init sys.kAudioObjectSystemObject
        (utils.selectAddress scope) with hc | hc | hc <;>
      rw [hc] at h <;> simp only [utils.processPropertyResult] at h
    · exact absurd h (by simp)
    · split at h
      · exact absurd h (by simp)
      · rename_i hne
        simp only [Ret.returns.injEq, Except.ok.injEq] at h
        rw [← h]
        exact to_device_id_ne_zero _
          (by simpa [sys.kAudioObjectUnknown] using hne)
    · exact absurd h (by simp)
  · intro hst hnz
    rw [gdd_decomp,
      gpd_success native 4 init sys.kAudioObjectSystemObject
        (utils.selectAddress scope) (by decide) hst]
    simp only [utils.processPropertyResult]
    rw [if_neg (show ¬_ % 2 ^ (8 * 4) = sys.kAudioObjectUnknown from hnz)]
    exact ⟨_, rfl,
      to_device_id_ne_zero _
        (by
          have h32 : (2 : Nat) ^ (8 * 4) = 2 ^ 32 := rfl
          rw [h32, Nat.mod_mod_of_dvd _ dvd_rfl]
          exact hnz)⟩

/-- Claim C7 witness: a concrete native oracle succeeding with id 5 makes
`get_default_device_id` return a successful nonzero id. -/
theorem claim_C7_witness :
    ∃ d : utils.DeviceId,
      utils.get_default_device_id (fun _ _ _ _ => ⟨0, 4, 5⟩) 0 utils.Scope.Output
          = Ret.returns (Except.ok d) ∧ d ≠ 0 :=
  (claim_C7_success_nonzero (fun _ _ _ _ => ⟨0, 4, 5⟩) 0 utils.Scope.Output).2
    rfl (by decide)

/-- Claim C8: for every 32-bit integer for which neither the absolute value
nor the doubling overflows, `double_abs x` equals `get_abs x * 2`, which
equals `2 * |x|`; and `double_abs 0 = 0`, `double_abs (-5) = 10`,
`double_abs 10 = 20` as in the integration test. -/
theorem claim_C8_double_abs :
    (∀ x : Int, -2 ^ 31 ≤ x → x < 2 ^ 31 → x ≠ -2 ^ 31 → |x| * 2 < 2 ^ 31 →
      utils.double_abs x = utils.get_abs x * 2 ∧ utils.get_abs x * 2 = 2 * |x|) ∧
    utils.double_abs 0 = 0 ∧ utils.double_abs (-5) = 10 ∧ utils.double_abs 10 = 20 := by
  constructor
  · intro x h1 h2 h3 h4
    have h5 : 0 ≤ |x| := abs_nonneg x
    have habs : utils.get_abs x = |x| := by
      unfold utils.get_abs
      omega
    refine ⟨?_, by rw [habs]; ring⟩
    unfold utils.double_abs
    rw [habs]
    omega
  · refine ⟨?_, ?_, ?_⟩ <;>
      simp [utils.double_abs, utils.get_abs, abs_of_nonneg, abs_of_nonpos]

/-- Claim C8 witness: the general statement applied at the concrete input 7. -/
theorem claim_C8_witness :
    utils.double_abs 7 = utils.get_abs 7 * 2 ∧ utils.get_abs 7 * 2 = 2 * |(7 : Int)| :=
  claim_C8_double_abs.1 7 (by norm_num) (by norm_num) (by norm_num) (by norm_num)

/-- Claim C9: `get_default_device_id` is deterministic: with the native call
modelled as a fixed function of its inputs, two calls with the same scope
against the same native behavior and buffer state return the same result. -/
theorem claim_C9_deterministic :
    ∀ (n1 n2 : sys.Native) (init : Nat) (scope : utils.Scope),
      (∀ (id : sys.AudioObjectID) (address : sys.AudioObjectPropertyAddress)
         (sz i : Nat), n1 id address sz i = n2 id address sz i) →
      utils.get_default_device_id n1 init scope
        = utils.get_default_device_id n2 init scope := by
  intro n1 n2 init scope h
  have he : n1 = n2 := funext fun a => funext fun b => funext fun c => funext fun d => h a b c d
  rw [he]

/-- Claim C9 witness: the determinism statement applied at a concrete
native oracle. -/
theorem claim_C9_witness :
    utils.get_default_device_id (fun _ _ _ _ => ⟨0, 4, 3⟩) 0 utils.Scope.Output
      = utils.get_default_device_id (fun _ _ _ _ => ⟨0, 4, 3⟩) 0 utils.Scope.Output :=
  claim_C9_deterministic (fun _ _ _ _ => ⟨0, 4, 3⟩) (fun _ _ _ _ => ⟨0, 4, 3⟩) 0
    utils.Scope.Output (fun _ _ _ _ => rfl)

/-- Claim C10: the C-ABI entry point returns `InvalidParameters` on a null
output pointer without consulting the native layer at all; it writes
through the pointer exactly on success; and on any error return the
pointed-to location is unchanged. -/
theorem claim_C10_ffi_contract :
    ∀ (native : sys.Native) (init : Nat) (scope : utils.Scope)
      (mem : utils.DeviceId),
      (∀ n2 : sys.Native,
        ffi_get_default_device_id native init scope true mem
          = ffi_get_default_device_id n2 init scope true mem) ∧
      ffi_get_default_device_id native init scope true mem
        = Ret.returns (utils.Error.InvalidParameters, mem) ∧
      (∀ (e : utils.Error) (m2 : utils.DeviceId),
        ffi_get_default_device_id native init scope false mem
            = Ret.returns (e, m2) →
        e ≠ utils.Error.Ok → m2 = mem) ∧
      (∀ m2 : utils.DeviceId,
        ffi_get_default_device_id native init scope false mem
            = Ret.returns (utils.Error.Ok, m2) →
        utils.get_default_device_id native init scope
          = Ret.returns (Except.ok m2)) := by
  intro native init scope mem
  refine ⟨fun _ => rfl, rfl, ?_, ?_⟩
  · intro e m2 h hne
    unfold ffi_get_default_device_id at h
    rw [if_neg (by simp)] at h
    rcases hg : utils.get_default_device_id native init scope with _ | a
    · rw [hg] at h
      exact absurd h (by simp)
    · rcases a with e2 | d
      · rw [hg] at h
        simp only [Ret.returns.injEq, Prod.mk.injEq] at h
        exact h.2.symm
      · rw [hg] at h
        simp only [Ret.returns.injEq, Prod.mk.injEq] at h
        exact absurd h.1.symm hne
  · intro m2 h
    unfold ffi_get_default_device_id at h
    rw [if_neg (by simp)] at h
    rcases hg : utils.get_default_device_id native init scope with _ | a
    · rw [hg] at h
      exact absurd h (by simp)
    · rcases a with e2 | d
      · rw [hg] at h
        simp only [Ret.returns.injEq, Prod.mk.injEq] at h
        exact absurd h.1 (gdd_error_ne_ok native init scope e2 hg)
      · rw [hg] at h
        simp only [Ret.returns.injEq, Prod.mk.injEq] at h
        rw [h.2]

/-- Claim C10 witness: with a concrete native oracle succeeding with id 5,
the entry point reports `Ok` and the written value matches the inner
lookup's successful result. -/
theorem claim_C10_witness :
    utils.get_default_device_id (fun _ _ _ _ => ⟨0, 4, 5⟩) 0 utils.Scope.Input
      = Ret.returns (Except.ok 5) :=
  (claim_C10_ffi_contract (fun _ _ _ _ => ⟨0, 4, 5⟩) 0 utils.Scope.Input 0).2.2.2 5 rfl
